import Mathlib

/-
Verification of the dmss data-loading module (src/dmss/dataset.py): a
manifest-backed sample index (PolypDataset), a fixed 80/10/10 contiguous
split, and batched iteration (get_data_loaders).

External library calls are modelled from their documented behaviour:
pandas read_csv (default header handling, iloc positional indexing),
cv2 decode (BGR byte order, grayscale masks), torch DataLoader
(constructor validation, sequential/shuffled sampling, default collate).
Floating-point tensor values are idealised as exact rationals, and the
Python expressions int(0.8 * N) / int(0.9 * N) as the exact floors
8*N/10 and 9*N/10, which the IEEE-double products round to for every
feasible manifest size.
-/

namespace Dmss

/-- A tensor: a shape together with a value at each multi-index. -/
structure Tensor where
  shape : List Nat
  val : List Nat → ℚ

/-- Result of cv.imread on an image path: an H x W grid of 3-channel
8-bit pixels in BGR byte order (channel argument 0 = blue, 2 = red). -/
structure ImageData where
  H : Nat
  W : Nat
  bgr : Nat → Nat → Nat → Nat

/-- Result of cv.imread with IMREAD_GRAYSCALE: an H x W grid of 8-bit
gray values. -/
structure MaskData where
  H : Nat
  W : Nat
  gray : Nat → Nat → Nat

/-- The filesystem and decoder environment visible to __getitem__:
which paths exist at access time, and what the decoders return. -/
structure Env where
  pathExists : String → Bool
  decodeImg : String → ImageData
  decodeMask : String → MaskData

/-- Lines 47-51 of dataset.py for the image: cv.cvtColor(image,
COLOR_BGR2RGB) reverses the channel order, torch.from_numpy(...)
.permute(2,0,1) moves the channel axis first, .float()/255.0 scales
8-bit values into [0,1].  So the tensor has shape [3, H, W] and value
bgr(y, x, 2-c)/255 at index [c, y, x]. -/
def imageTensor (d : ImageData) : Tensor where
  shape := [3, d.H, d.W]
  val := fun idx =>
    match idx with
    | [c, y, x] => (d.bgr y x (2 - c) : ℚ) / 255
    | _ => 0

/-- Line 52 of dataset.py: torch.from_numpy(mask).unsqueeze(0)
.float()/255.0 gives shape [1, H, W] with value gray(y, x)/255 at
index [0, y, x]. -/
def maskTensor (m : MaskData) : Tensor where
  shape := [1, m.H, m.W]
  val := fun idx =>
    match idx with
    | [0, y, x] => (m.gray y x : ℚ) / 255
    | _ => 0

/-- Per-channel mean of v2.Normalize(mean=[0.485, 0.456, 0.406], ...)
configured on line 28 of dataset.py. -/
def imageMean (c : Nat) : ℚ :=
  if c = 0 then 485 / 1000 else if c = 1 then 456 / 1000 else 406 / 1000

/-- Per-channel std of v2.Normalize(..., std=[0.229, 0.224, 0.225])
configured on line 28 of dataset.py. -/
def imageStd (c : Nat) : ℚ :=
  if c = 0 then 229 / 1000 else if c = 1 then 224 / 1000 else 225 / 1000

/-- Model of torchvision v2.Normalize: per leading-channel c, replaces
each value v by (v - mean c) / std c. -/
def normalizeWith (mean std : Nat → ℚ) (t : Tensor) : Tensor where
  shape := t.shape
  val := fun idx =>
    match idx with
    | c :: rest => (t.val (c :: rest) - mean c) / std c
    | [] => t.val []

/-- Model of pandas.read_csv with default arguments, as called on line
23 of dataset.py: the first line of the file is the header and the
remaining lines are the data rows, in file order.  (pandas raises on an
empty file, so the model is only meaningful for nonempty files.)  Each
line is modelled as its first two fields (image path, mask path). -/
def read_csv (fileLines : List (String × String)) : List (String × String) :=
  fileLines.tail

/-- The PolypDataset object after __init__ (lines 15-29 of dataset.py):
the parsed manifest rows, the optional image/mask transforms (the
.to(device) call only moves a transform to a device and is dropped from
the model), and the two Normalize transforms stored on lines 28-29. -/
structure PolypDataset where
  manifestRows : List (String × String)
  img_tf : Option (Tensor → Tensor)
  mask_tf : Option (Tensor → Tensor)
  image_normalize : Tensor → Tensor
  mask_normalize : Tensor → Tensor

/-- PolypDataset.__init__: reads the manifest with pandas.read_csv,
stores the transforms, and configures the two Normalize transforms.
It takes no filesystem argument: no referenced path is checked here. -/
def PolypDataset.init (fileLines : List (String × String))
    (img_transform msk_transform : Option (Tensor → Tensor)) : PolypDataset where
  manifestRows := read_csv fileLines
  img_tf := img_transform
  mask_tf := msk_transform
  image_normalize := normalizeWith imageMean imageStd
  mask_normalize := normalizeWith (fun _ => 1 / 2) (fun _ => 1 / 2)

/-- PolypDataset.__len__: the number of data rows. -/
def PolypDataset.len (ds : PolypDataset) : Nat :=
  ds.manifestRows.length

/-- Model of pandas DataFrame.iloc positional row access, as used on
lines 38-39 of dataset.py: a nonnegative position i selects row i; a
negative position i selects row (length + i); anything out of bounds
raises IndexError (modelled as none). -/
def iloc (rows : List (String × String)) (i : Int) : Option (String × String) :=
  let j : Int := if 0 ≤ i then i else (rows.length : Int) + i
  if 0 ≤ j then rows.get? j.toNat else none

/-- The errors __getitem__ can raise: FileNotFoundError for a missing
image or mask path (lines 41-44), or IndexError from iloc. -/
inductive GetError where
  | MissingImageFile (path : String)
  | MissingMaskFile (path : String)
  | IndexError
deriving DecidableEq

/-- Lines 54-55 and 56-57 of dataset.py: `if self.img_tf: image =
self.img_tf(image)` — apply an optional transform, else keep the
tensor. -/
def applyTf (tf : Option (Tensor → Tensor)) (t : Tensor) : Tensor :=
  match tf with
  | some f => f t
  | none => t

/-- PolypDataset._get_item_from_csv (lines 37-58 of dataset.py):
resolve both paths via iloc, check existence of each (image first),
decode, scale, and apply the optional transforms.  The stored
image_normalize / mask_normalize transforms are NOT applied anywhere
in this function, faithful to the source. -/
def PolypDataset.getItemFromCsv (ds : PolypDataset) (env : Env) (index : Int) :
    Except GetError (Tensor × Tensor) :=
  match iloc ds.manifestRows index with
  | none => .error .IndexError
  | some (img_path, mask_path) =>
    if env.pathExists img_path = false then
      .error (.MissingImageFile img_path)
    else if env.pathExists mask_path = false then
      .error (.MissingMaskFile mask_path)
    else
      let image := imageTensor (env.decodeImg img_path)
      let mask := maskTensor (env.decodeMask mask_path)
      .ok (applyTf ds.img_tf image, applyTf ds.mask_tf mask)

/-- PolypDataset.__getitem__ (lines 34-35): delegates to
_get_item_from_csv. -/
def PolypDataset.getItem (ds : PolypDataset) (env : Env) (index : Int) :
    Except GetError (Tensor × Tensor) :=
  ds.getItemFromCsv env index

/-- Line 89 of dataset.py: split1 = int(0.8 * size_dataset).  The
IEEE-double product 0.8 * N equals the exact rational 4N/5 whenever 5
divides N and otherwise lies well inside the unit interval around it,
so int() truncation gives floor(0.8 * N) = 8*N/10 for every feasible
size. -/
def split1 (n : Nat) : Nat := 8 * n / 10

/-- Line 90 of dataset.py: split2 = int(0.9 * size_dataset) =
floor(0.9 * N) = 9*N/10, by the same argument as split1. -/
def split2 (n : Nat) : Nat := 9 * n / 10

/-- Lines 87 and 92: indices = list(range(size_dataset));
train_indices = indices[:split1]. -/
def train_indices (n : Nat) : List Nat :=
  (List.range n).take (split1 n)

/-- Line 93: val_indices = indices[split1:split2]. -/
def val_indices (n : Nat) : List Nat :=
  ((List.range n).drop (split1 n)).take (split2 n - split1 n)

/-- Line 94: test_indices = indices[split2:]. -/
def test_indices (n : Nat) : List Nat :=
  (List.range n).drop (split2 n)

/-- The errors raised by torch DataLoader construction:
ConfigurationError for an invalid batch size or worker count (the
spec's taxonomy), and SamplerValueError for the RandomSampler's
num_samples validation, which rejects shuffling an empty dataset — a
distinct construction-time ValueError that is not one of the spec's
batch-size/worker-count configuration errors. -/
inductive LoaderError where
  | ConfigurationError (msg : String)
  | SamplerValueError (msg : String)
deriving DecidableEq

/-- A constructed torch DataLoader over a Subset of the dataset: the
subset's dataset indices in positional order, the batch size, the
shuffle flag, and the worker count. -/
structure DataLoader where
  indices : List Nat
  batch_size : Nat
  shuffle : Bool
  num_workers : Int
deriving DecidableEq

/-- Model of torch.utils.data.DataLoader construction as invoked on
lines 99-108 of dataset.py, with the checks in the constructor's
order: first num_workers >= 0 is validated; then the sampler is built
— with shuffle=True this is a RandomSampler, whose constructor raises
ValueError when num_samples = 0, i.e. when the dataset is empty
(SequentialSampler, used when shuffle=False, has no such check); then
BatchSampler validates batch_size >= 1. -/
def DataLoader.make (indices : List Nat) (batch_size : Int) (shuffle : Bool)
    (num_workers : Int) : Except LoaderError DataLoader :=
  if num_workers < 0 then
    .error (.ConfigurationError "num_workers option should be non-negative")
  else if shuffle = true ∧ indices = [] then
    .error (.SamplerValueError
      "num_samples should be a positive integer value, but got num_samples=0")
  else if batch_size < 1 then
    .error (.ConfigurationError "batch_size should be a positive integer value")
  else
    .ok { indices := indices, batch_size := batch_size.toNat,
          shuffle := shuffle, num_workers := num_workers }

/-- get_data_loaders (lines 64-111 of dataset.py): construct the
dataset from the manifest, compute the 80/10/10 contiguous split of
list(range(N)), wrap each range as a Subset, and build the three
DataLoaders (train shuffled, valid and test sequential).  The manifest
file's parsed lines stand in for the annotations_path argument; the
device argument only configures transform placement and is dropped. -/
def get_data_loaders (fileLines : List (String × String))
    (transform_image transform_mask : Option (Tensor → Tensor))
    (batch_size : Int) (num_workers : Int) :
    Except LoaderError (DataLoader × DataLoader × DataLoader) := do
  let main_dataset := PolypDataset.init fileLines transform_image transform_mask
  let size_dataset := main_dataset.len
  let train_loader ← DataLoader.make (train_indices size_dataset) batch_size true num_workers
  let val_loader ← DataLoader.make (val_indices size_dataset) batch_size false num_workers
  let test_loader ← DataLoader.make (test_indices size_dataset) batch_size false num_workers
  return (train_loader, val_loader, test_loader)

/-- Chunk a list into consecutive groups of bs elements (the last group
may be shorter), with explicit fuel for structural recursion; fuel at
least the list length is enough when bs >= 1. -/
def chunksAux (fuel bs : Nat) (l : List Nat) : List (List Nat) :=
  match fuel, l with
  | 0, _ => []
  | _, [] => []
  | Nat.succ f, l => l.take bs :: chunksAux f bs (l.drop bs)

/-- Batching as performed by a torch DataLoader with drop_last=False:
consecutive chunks of batch_size elements of the sampling order, the
last chunk possibly shorter. -/
def chunksOf (bs : Nat) (l : List Nat) : List (List Nat) :=
  if bs = 0 then [] else chunksAux l.length bs l

/-- One full pass of a DataLoader's iterator, as a list of batches of
dataset indices.  With shuffle=False the SequentialSampler visits
positions 0, 1, ... so the batches chunk `indices` in positional
order; with shuffle=True the RandomSampler visits a fresh permutation
`perm` of the positions, supplied here as a parameter. -/
def DataLoader.pass (dl : DataLoader) (perm : List Nat) : List (List Nat) :=
  let order := if dl.shuffle then perm.filterMap (fun p => dl.indices.get? p) else dl.indices
  chunksOf dl.batch_size order

/-- Model of torch's default collate on a batch of same-shape tensors:
stack along a new leading dimension, so b tensors of shape s give one
tensor of shape b :: s. -/
def collate (ts : List Tensor) : Tensor where
  shape := ts.length :: (match ts with | [] => [] | t :: _ => t.shape)
  val := fun idx =>
    match idx with
    | i :: rest =>
      match ts.get? i with
      | some t => t.val rest
      | none => 0
    | [] => 0

/-! ### Basic facts about the split -/

lemma split1_le_split2 (n : Nat) : split1 n ≤ split2 n := by
  unfold split1 split2; omega

lemma split2_le (n : Nat) : split2 n ≤ n := by
  unfold split2; omega

lemma split1_le (n : Nat) : split1 n ≤ n :=
  le_trans (split1_le_split2 n) (split2_le n)

lemma drop_range_eq (n m : Nat) (h : m ≤ n) :
    (List.range n).drop m = List.range' m (n - m) := by
  rw [show n = m + (n - m) by omega, List.range_eq_range',
    show m + (n - m) = (n - m) + m from Nat.add_comm ..,
    ← List.range'_append 0 m (n - m) 1]
  simp [List.drop_left']

lemma train_indices_eq (n : Nat) : train_indices n = List.range' 0 (split1 n) := by
  rw [train_indices, List.take_range, Nat.min_eq_left (split1_le n), List.range_eq_range']

lemma val_indices_eq (n : Nat) :
    val_indices n = List.range' (split1 n) (split2 n - split1 n) := by
  have h1 := split1_le_split2 n
  have h2 := split2_le n
  rw [val_indices, drop_range_eq n (split1 n) (split1_le n),
    show n - split1 n = (n - split2 n) + (split2 n - split1 n) by omega,
    ← List.range'_append (split1 n) (split2 n - split1 n) (n - split2 n) 1]
  exact List.take_left' (by simp)

lemma test_indices_eq (n : Nat) :
    test_indices n = List.range' (split2 n) (n - split2 n) := by
  rw [test_indices, drop_range_eq n (split2 n) (split2_le n)]

lemma train_indices_eq_nil_iff (n : Nat) : train_indices n = [] ↔ n ≤ 1 := by
  rw [← List.length_eq_zero, train_indices, List.length_take, List.length_range,
    split1, Nat.min_def]
  split <;> omega

lemma get_data_loaders_ok (rows : List (String × String))
    (it mt : Option (Tensor → Tensor)) (bs nw : Int)
    (hbs : 1 ≤ bs) (hnw : 0 ≤ nw) (hn : 2 ≤ (read_csv rows).length) :
    get_data_loaders rows it mt bs nw =
      .ok (⟨train_indices (read_csv rows).length, bs.toNat, true, nw⟩,
           ⟨val_indices (read_csv rows).length, bs.toNat, false, nw⟩,
           ⟨test_indices (read_csv rows).length, bs.toNat, false, nw⟩) := by
  have htr : ¬(train_indices (read_csv rows).length = []) := by
    rw [train_indices_eq_nil_iff]
    omega
  simp [get_data_loaders, DataLoader.make, PolypDataset.len, PolypDataset.init,
    show ¬(nw < 0) by omega, show ¬(bs < 1) by omega, htr, bind, Except.bind,
    pure, Except.pure]

lemma get_data_loaders_ok_inv (rows : List (String × String))
    (it mt : Option (Tensor → Tensor)) (bs nw : Int) (tl vl tst : DataLoader)
    (h : get_data_loaders rows it mt bs nw = .ok (tl, vl, tst)) :
    1 ≤ bs ∧ 0 ≤ nw ∧ 2 ≤ (read_csv rows).length ∧
    tl = ⟨train_indices (read_csv rows).length, bs.toNat, true, nw⟩ ∧
    vl = ⟨val_indices (read_csv rows).length, bs.toNat, false, nw⟩ ∧
    tst = ⟨test_indices (read_csv rows).length, bs.toNat, false, nw⟩ := by
  by_cases hnw : nw < 0
  · exfalso
    simp [get_data_loaders, DataLoader.make, if_pos hnw, bind, Except.bind] at h
  by_cases htr : train_indices (read_csv rows).length = []
  · exfalso
    simp [get_data_loaders, DataLoader.make, PolypDataset.len, PolypDataset.init,
      hnw, htr, bind, Except.bind] at h
  by_cases hbs : bs < 1
  · exfalso
    simp [get_data_loaders, DataLoader.make, PolypDataset.len, PolypDataset.init,
      hnw, htr, hbs, bind, Except.bind] at h
  have hn : 2 ≤ (read_csv rows).length := by
    have hgt : ¬((read_csv rows).length ≤ 1) :=
      fun hle => htr ((train_indices_eq_nil_iff _).mpr hle)
    omega
  have h0 := (get_data_loaders_ok rows it mt bs nw (by omega) (by omega) hn).symm.trans h
  rw [Except.ok.injEq, Prod.mk.injEq, Prod.mk.injEq] at h0
  exact ⟨by omega, by omega, hn, h0.1.symm, h0.2.1.symm, h0.2.2.symm⟩

lemma train_indices_length (n : Nat) : (train_indices n).length = split1 n := by
  rw [train_indices_eq]; simp

lemma val_indices_length (n : Nat) :
    (val_indices n).length = split2 n - split1 n := by
  rw [val_indices_eq]; simp

lemma test_indices_length (n : Nat) :
    (test_indices n).length = n - split2 n := by
  rw [test_indices_eq]; simp

lemma train_disj_val (n : Nat) : (train_indices n).Disjoint (val_indices n) := by
  rw [train_indices_eq, val_indices_eq]
  intro a ha hb
  rw [List.mem_range'_1] at ha hb
  omega

lemma train_disj_test (n : Nat) : (train_indices n).Disjoint (test_indices n) := by
  rw [train_indices_eq, test_indices_eq]
  intro a ha hb
  rw [List.mem_range'_1] at ha hb
  have := split1_le_split2 n
  omega

lemma val_disj_test (n : Nat) : (val_indices n).Disjoint (test_indices n) := by
  rw [val_indices_eq, test_indices_eq]
  intro a ha hb
  rw [List.mem_range'_1] at ha hb
  have := split1_le_split2 n
  omega

lemma indices_union (n : Nat) :
    train_indices n ++ val_indices n ++ test_indices n = List.range n := by
  have hs12 := split1_le_split2 n
  rw [List.append_assoc, train_indices, val_indices, test_indices,
    show (List.range n).drop (split2 n) =
      ((List.range n).drop (split1 n)).drop (split2 n - split1 n) by
        rw [List.drop_drop]; congr 1; omega,
    List.take_append_drop, List.take_append_drop]

lemma indices_sum (n : Nat) :
    (train_indices n).length + (val_indices n).length + (test_indices n).length = n := by
  have h := congrArg List.length (indices_union n)
  simp only [List.length_append, List.length_range] at h
  omega

lemma split1_floor (n : Nat) : split1 n = Nat.floor ((8 / 10 : ℚ) * n) := by
  have h : (8 / 10 : ℚ) * n = ((8 * n : ℕ) : ℚ) / ((10 : ℕ) : ℚ) := by push_cast; ring
  rw [split1, h, Nat.floor_div_nat, Nat.floor_natCast]

lemma split2_floor (n : Nat) : split2 n = Nat.floor ((9 / 10 : ℚ) * n) := by
  have h : (9 / 10 : ℚ) * n = ((9 * n : ℕ) : ℚ) / ((10 : ℕ) : ℚ) := by push_cast; ring
  rw [split2, h, Nat.floor_div_nat, Nat.floor_natCast]

/-! ### Claims C1 and C2: the 80/10/10 split -/

/-- C1: for a manifest with N data rows, get_data_loaders computes
split1 = floor(0.8 N) and split2 = floor(0.9 N) and assigns the
contiguous index ranges train = [0, split1), valid = [split1, split2),
test = [split2, N), whose sizes are split1, split2 - split1 and
N - split2 respectively, for every N ≥ 0. -/
theorem C1_split_sizes (rows : List (String × String))
    (it mt : Option (Tensor → Tensor)) (bs nw : Int)
    (hbs : 1 ≤ bs) (hnw : 0 ≤ nw) (tl vl tst : DataLoader)
    (h : get_data_loaders rows it mt bs nw = .ok (tl, vl, tst)) :
    split1 (read_csv rows).length = Nat.floor ((8 / 10 : ℚ) * (read_csv rows).length) ∧
    split2 (read_csv rows).length = Nat.floor ((9 / 10 : ℚ) * (read_csv rows).length) ∧
    tl.indices = List.range' 0 (split1 (read_csv rows).length) ∧
    vl.indices = List.range' (split1 (read_csv rows).length)
      (split2 (read_csv rows).length - split1 (read_csv rows).length) ∧
    tst.indices = List.range' (split2 (read_csv rows).length)
      ((read_csv rows).length - split2 (read_csv rows).length) ∧
    tl.indices.length = split1 (read_csv rows).length ∧
    vl.indices.length = split2 (read_csv rows).length - split1 (read_csv rows).length ∧
    tst.indices.length = (read_csv rows).length - split2 (read_csv rows).length := by
  obtain ⟨-, -, -, h1, h2, h3⟩ := get_data_loaders_ok_inv rows it mt bs nw tl vl tst h
  subst h1 h2 h3
  exact ⟨split1_floor _, split2_floor _, train_indices_eq _, val_indices_eq _,
    test_indices_eq _, train_indices_length _, val_indices_length _,
    test_indices_length _⟩

/-- C1 witness: instantiated at a concrete 21-line manifest (N = 20
data rows), batch_size 16, num_workers 4: split1 = 16, split2 = 18,
and the three partitions have sizes 16, 2, 2. -/
theorem C1_split_sizes_witness :
    (DataLoader.mk (train_indices 20) 16 true 4).indices.length = split1 20 ∧
    (DataLoader.mk (val_indices 20) 16 false 4).indices.length = split2 20 - split1 20 ∧
    (DataLoader.mk (test_indices 20) 16 false 4).indices.length = 20 - split2 20 := by
  have h := C1_split_sizes (List.replicate 21 ("img", "msk")) none none 16 4
    (by norm_num) (by norm_num)
    (DataLoader.mk (train_indices 20) 16 true 4)
    (DataLoader.mk (val_indices 20) 16 false 4)
    (DataLoader.mk (test_indices 20) 16 false 4)
    (get_data_loaders_ok (List.replicate 21 ("img", "msk")) none none 16 4
      (by norm_num) (by norm_num) (by decide))
  have hn : (read_csv (List.replicate 21 ("img", "msk"))).length = 20 := by
    simp [read_csv]
  rw [hn] at h
  exact ⟨h.2.2.2.2.2.1, h.2.2.2.2.2.2.1, h.2.2.2.2.2.2.2⟩

/-- C2: the three partitions produced by get_data_loaders are pairwise
disjoint contiguous ranges, ordered train before valid before test,
whose concatenation is exactly the full index list [0, ..., N-1]; in
particular the three sizes sum to N. -/
theorem C2_partition_invariant (rows : List (String × String))
    (it mt : Option (Tensor → Tensor)) (bs nw : Int)
    (hbs : 1 ≤ bs) (hnw : 0 ≤ nw) (tl vl tst : DataLoader)
    (h : get_data_loaders rows it mt bs nw = .ok (tl, vl, tst)) :
    tl.indices.Disjoint vl.indices ∧
    tl.indices.Disjoint tst.indices ∧
    vl.indices.Disjoint tst.indices ∧
    tl.indices ++ vl.indices ++ tst.indices = List.range (read_csv rows).length ∧
    tl.indices.length + vl.indices.length + tst.indices.length =
      (read_csv rows).length := by
  obtain ⟨-, -, -, h1, h2, h3⟩ := get_data_loaders_ok_inv rows it mt bs nw tl vl tst h
  subst h1 h2 h3
  exact ⟨train_disj_val _, train_disj_test _, val_disj_test _, indices_union _,
    indices_sum _⟩

/-- C2 witness: at a concrete 10-line manifest (N = 9 data rows) the
partition index lists concatenate to [0, ..., 8] and their sizes sum
to 9. -/
theorem C2_partition_invariant_witness :
    (DataLoader.mk (train_indices 9) 2 true 0).indices ++
      (DataLoader.mk (val_indices 9) 2 false 0).indices ++
      (DataLoader.mk (test_indices 9) 2 false 0).indices = List.range 9 ∧
    (DataLoader.mk (train_indices 9) 2 true 0).indices.length +
      (DataLoader.mk (val_indices 9) 2 false 0).indices.length +
      (DataLoader.mk (test_indices 9) 2 false 0).indices.length = 9 := by
  have h := C2_partition_invariant (List.replicate 10 ("img", "msk")) none none 2 0
    (by norm_num) (by norm_num)
    (DataLoader.mk (train_indices 9) 2 true 0)
    (DataLoader.mk (val_indices 9) 2 false 0)
    (DataLoader.mk (test_indices 9) 2 false 0)
    (get_data_loaders_ok (List.replicate 10 ("img", "msk")) none none 2 0
      (by norm_num) (by norm_num) (by decide))
  have hn : (read_csv (List.replicate 10 ("img", "msk"))).length = 9 := by
    simp [read_csv]
  rw [hn] at h
  exact ⟨h.2.2.2.1, h.2.2.2.2⟩

/-! ### Claim C3: configuration validation -/

/-- C3 counterexample: the claim's success direction fails — on a
one-line manifest (0 data rows) with the valid configuration
batch_size 16, num_workers 4, get_data_loaders does not succeed: the
shuffling train loader's RandomSampler rejects the empty train subset
at construction.  The ConfigurationError direction fails too: with
batch_size 0 on the same manifest the num_samples error fires before
the batch-size check, so no batch-size/worker ConfigurationError is
raised despite batch_size < 1. -/
theorem C3_counterexample :
    get_data_loaders [("hdr", "hdr")] none none 16 4 =
      .error (.SamplerValueError
        "num_samples should be a positive integer value, but got num_samples=0") ∧
    get_data_loaders [("hdr", "hdr")] none none 0 4 =
      .error (.SamplerValueError
        "num_samples should be a positive integer value, but got num_samples=0") := by
  constructor <;> rfl

/-- C3 amended: get_data_loaders raises a ConfigurationError at
construction exactly when num_workers < 0, or when batch_size < 1 and
the manifest has at least 2 data rows (so that the train partition is
nonempty and the shuffling sampler's own check does not fire first);
construction succeeds exactly when batch_size ≥ 1, num_workers ≥ 0 and
the manifest has at least 2 data rows; and with num_workers ≥ 0 over a
manifest with at most 1 data row the call instead raises the
RandomSampler's num_samples ValueError, which is not one of the
spec's configuration errors. -/
theorem C3_amended (rows : List (String × String))
    (it mt : Option (Tensor → Tensor)) (bs nw : Int) :
    ((∃ msg, get_data_loaders rows it mt bs nw =
        .error (.ConfigurationError msg)) ↔
      (nw < 0 ∨ (bs < 1 ∧ 2 ≤ (read_csv rows).length))) ∧
    ((∃ out, get_data_loaders rows it mt bs nw = .ok out) ↔
      (1 ≤ bs ∧ 0 ≤ nw ∧ 2 ≤ (read_csv rows).length)) ∧
    ((∃ msg, get_data_loaders rows it mt bs nw =
        .error (.SamplerValueError msg)) ↔
      (0 ≤ nw ∧ (read_csv rows).length ≤ 1)) := by
  by_cases hnw : nw < 0
  · have hred : get_data_loaders rows it mt bs nw =
        .error (.ConfigurationError "num_workers option should be non-negative") := by
      simp [get_data_loaders, DataLoader.make, if_pos hnw, bind, Except.bind]
    refine ⟨?_, ?_, ?_⟩
    · simp only [hred]
      simp
      omega
    · simp only [hred]
      simp
      omega
    · simp only [hred]
      simp
      omega
  · by_cases hle : (read_csv rows).length ≤ 1
    · have htr : train_indices (read_csv rows).length = [] :=
        (train_indices_eq_nil_iff _).mpr hle
      have hred : get_data_loaders rows it mt bs nw =
          .error (.SamplerValueError
            "num_samples should be a positive integer value, but got num_samples=0") := by
        simp [get_data_loaders, DataLoader.make, PolypDataset.len, PolypDataset.init,
          hnw, htr, bind, Except.bind]
      refine ⟨?_, ?_, ?_⟩
      · simp only [hred]
        simp
        omega
      · simp only [hred]
        simp
        omega
      · simp only [hred]
        simp
        omega
    · by_cases hbs : bs < 1
      · have htr : ¬(train_indices (read_csv rows).length = []) := by
          rw [train_indices_eq_nil_iff]
          omega
        have hred : get_data_loaders rows it mt bs nw =
            .error (.ConfigurationError
              "batch_size should be a positive integer value") := by
          simp [get_data_loaders, DataLoader.make, PolypDataset.len,
            PolypDataset.init, hnw, htr, if_pos hbs, bind, Except.bind]
        refine ⟨?_, ?_, ?_⟩
        · simp only [hred]
          simp
          omega
        · simp only [hred]
          simp
          omega
        · simp only [hred]
          simp
          omega
      · have hred := get_data_loaders_ok rows it mt bs nw (by omega) (by omega)
          (by omega)
        refine ⟨?_, ?_, ?_⟩
        · simp only [hred]
          simp
          omega
        · simp only [hred]
          simp
          omega
        · simp only [hred]
          simp
          omega

/-- C3 amended witness: a 3-line manifest (2 data rows) with the
default configuration (16, 4) constructs successfully; the same
manifest with batch_size 0 raises a ConfigurationError; and a 1-line
manifest with a valid configuration raises the sampler error instead
of succeeding. -/
theorem C3_amended_witness :
    (∃ out, get_data_loaders [("h", "h"), ("i0", "m0"), ("i1", "m1")]
      none none 16 4 = .ok out) ∧
    (∃ msg, get_data_loaders [("h", "h"), ("i0", "m0"), ("i1", "m1")]
      none none 0 4 = .error (.ConfigurationError msg)) ∧
    (∃ msg, get_data_loaders [("hdr", "hdr")] none none 16 4 =
      .error (.SamplerValueError msg)) :=
  ⟨(C3_amended [("h", "h"), ("i0", "m0"), ("i1", "m1")] none none 16 4).2.1.mpr
      ⟨by norm_num, by norm_num, by decide⟩,
   (C3_amended [("h", "h"), ("i0", "m0"), ("i1", "m1")] none none 0 4).1.mpr
      (Or.inr ⟨by norm_num, by decide⟩),
   (C3_amended [("hdr", "hdr")] none none 16 4).2.2.mpr
      ⟨by norm_num, by decide⟩⟩

/-! ### Claim C4: scaling happens in get, normalization does not -/

/-- C4 counterexample: with a 1x1 all-255 image and mask and no user
transforms, __getitem__ does NOT return the normalized tensors — the
Normalize transforms stored at construction are never applied by get.
(The returned image value at [0,0,0] is 255/255 = 1, not
(1 - 0.485)/0.229.) -/
theorem C4_counterexample :
    (PolypDataset.init [("hdr", "hdr"), ("img0", "msk0")] none none).getItem
        (Env.mk (fun _ => true) (fun _ => ImageData.mk 1 1 (fun _ _ _ => 255))
          (fun _ => MaskData.mk 1 1 (fun _ _ => 255))) 0 ≠
      Except.ok
        ((PolypDataset.init [("hdr", "hdr"), ("img0", "msk0")] none none).image_normalize
            (imageTensor (ImageData.mk 1 1 (fun _ _ _ => 255))),
         (PolypDataset.init [("hdr", "hdr"), ("img0", "msk0")] none none).mask_normalize
            (maskTensor (MaskData.mk 1 1 (fun _ _ => 255)))) := by
  intro hEq
  have hact : (PolypDataset.init [("hdr", "hdr"), ("img0", "msk0")] none none).getItem
      (Env.mk (fun _ => true) (fun _ => ImageData.mk 1 1 (fun _ _ _ => 255))
        (fun _ => MaskData.mk 1 1 (fun _ _ => 255))) 0 =
      Except.ok (imageTensor (ImageData.mk 1 1 (fun _ _ _ => 255)),
        maskTensor (MaskData.mk 1 1 (fun _ _ => 255))) := rfl
  rw [hact, Except.ok.injEq, Prod.mk.injEq] at hEq
  have hv := congrArg (fun t => t.val [0, 0, 0]) hEq.1
  have hv' : ((255 : ℚ) / 255) = ((255 : ℚ) / 255 - 485 / 1000) / (229 / 1000) := hv
  norm_num at hv'

/-- C4 amended: for every in-bounds row whose files exist, __getitem__
with no user transforms returns exactly the decoded tensors scaled
into [0,1] by division by 255 (image channel-reversed BGR→RGB and
channel-first, mask with a leading channel dimension); the Normalize
transforms configured at construction are not applied. -/
theorem C4_amended (env : Env) (ds : PolypDataset) (i : Int) (img msk : String)
    (hrow : iloc ds.manifestRows i = some (img, msk))
    (himg : env.pathExists img = true) (hmsk : env.pathExists msk = true)
    (htf1 : ds.img_tf = none) (htf2 : ds.mask_tf = none) :
    ds.getItem env i =
      .ok (imageTensor (env.decodeImg img), maskTensor (env.decodeMask msk)) ∧
    (∀ c y x, (imageTensor (env.decodeImg img)).val [c, y, x] =
      ((env.decodeImg img).bgr y x (2 - c) : ℚ) / 255) ∧
    (∀ y x, (maskTensor (env.decodeMask msk)).val [0, y, x] =
      ((env.decodeMask msk).gray y x : ℚ) / 255) := by
  refine ⟨?_, fun c y x => rfl, fun y x => rfl⟩
  unfold PolypDataset.getItem PolypDataset.getItemFromCsv
  rw [hrow]
  simp [himg, hmsk, htf1, htf2, applyTf]

/-- C4 amended witness: instantiated at a concrete one-row manifest
with 1x1 decoded data, evaluating the scaled image value 255/255. -/
theorem C4_amended_witness :
    (PolypDataset.init [("hdr", "hdr"), ("imgA", "mskA")] none none).getItem
        (Env.mk (fun _ => true) (fun _ => ImageData.mk 1 1 (fun _ _ _ => 255))
          (fun _ => MaskData.mk 1 1 (fun _ _ => 255))) 0 =
      .ok (imageTensor (ImageData.mk 1 1 (fun _ _ _ => 255)),
        maskTensor (MaskData.mk 1 1 (fun _ _ => 255))) :=
  (C4_amended
    (Env.mk (fun _ => true) (fun _ => ImageData.mk 1 1 (fun _ _ _ => 255))
      (fun _ => MaskData.mk 1 1 (fun _ _ => 255)))
    (PolypDataset.init [("hdr", "hdr"), ("imgA", "mskA")] none none) 0
    "imgA" "mskA" rfl rfl rfl rfl rfl).1

/-! ### Claim C5: lazy per-access file-existence checks -/

/-- Whether a result of __getitem__ is a missing-file error (a
FileNotFoundError for the image or for the mask path). -/
def missingFileRaised (r : Except GetError (Tensor × Tensor)) : Bool :=
  match r with
  | .error (.MissingImageFile _) => true
  | .error (.MissingMaskFile _) => true
  | _ => false

/-- C5: for an in-bounds row, __getitem__ raises a missing-file error
if and only if the row's image path or mask path does not exist in the
access-time filesystem; and construction only parses the manifest — it
takes no filesystem argument and checks no referenced path. -/
theorem C5_missing_file_lazy (env : Env) (ds : PolypDataset) (i : Int)
    (img msk : String) (hrow : iloc ds.manifestRows i = some (img, msk)) :
    (missingFileRaised (ds.getItem env i) = true ↔
      (env.pathExists img = false ∨ env.pathExists msk = false)) ∧
    (∀ fileLines it mt, (PolypDataset.init fileLines it mt).manifestRows =
      read_csv fileLines) := by
  refine ⟨?_, fun fileLines it mt => rfl⟩
  unfold PolypDataset.getItem PolypDataset.getItemFromCsv
  rw [hrow]
  cases hI : env.pathExists img <;> cases hM : env.pathExists msk <;>
    simp [missingFileRaised, hI, hM]

/-- C5 witness: with a filesystem in which only the image path exists,
access raises a missing-file error; the equivalence is instantiated at
a concrete one-row manifest. -/
theorem C5_missing_file_lazy_witness :
    missingFileRaised
      ((PolypDataset.init [("hdr", "hdr"), ("imgB", "mskB")] none none).getItem
        (Env.mk (fun p => p = "imgB") (fun _ => ImageData.mk 1 1 (fun _ _ _ => 0))
          (fun _ => MaskData.mk 1 1 (fun _ _ => 0))) 0) = true :=
  ((C5_missing_file_lazy
    (Env.mk (fun p => p = "imgB") (fun _ => ImageData.mk 1 1 (fun _ _ _ => 0))
      (fun _ => MaskData.mk 1 1 (fun _ _ => 0)))
    (PolypDataset.init [("hdr", "hdr"), ("imgB", "mskB")] none none) 0
    "imgB" "mskB" rfl).1).mpr (Or.inr (by decide))

/-! ### Facts about batching -/

lemma chunksAux_nil (fuel bs : Nat) : chunksAux fuel bs [] = [] := by
  cases fuel <;> rfl

lemma chunksAux_flatten (bs : Nat) (hbs : 1 ≤ bs) :
    ∀ (fuel : Nat) (l : List Nat), l.length ≤ fuel →
      (chunksAux fuel bs l).flatten = l := by
  intro fuel
  induction fuel with
  | zero =>
    intro l hl
    have hnil : l = [] := List.eq_nil_of_length_eq_zero (by omega)
    subst hnil
    rfl
  | succ f ih =>
    intro l hl
    cases l with
    | nil => rfl
    | cons a l' =>
      rw [show chunksAux (f + 1) bs (a :: l') =
        (a :: l').take bs :: chunksAux f bs ((a :: l').drop bs) from rfl,
        List.flatten_cons, ih ((a :: l').drop bs) (by simp at hl ⊢; omega),
        List.take_append_drop]

lemma chunksOf_flatten (bs : Nat) (l : List Nat) (hbs : 1 ≤ bs) :
    (chunksOf bs l).flatten = l := by
  rw [chunksOf, if_neg (by omega)]
  exact chunksAux_flatten bs hbs l.length l le_rfl

lemma chunksAux_mem_length_le (bs : Nat) :
    ∀ (fuel : Nat) (l b : List Nat), b ∈ chunksAux fuel bs l → b.length ≤ bs := by
  intro fuel
  induction fuel with
  | zero => intro l b hb; simp [chunksAux] at hb
  | succ f ih =>
    intro l b hb
    cases l with
    | nil => simp [chunksAux] at hb
    | cons a l' =>
      rw [show chunksAux (f + 1) bs (a :: l') =
        (a :: l').take bs :: chunksAux f bs ((a :: l').drop bs) from rfl] at hb
      rcases List.mem_cons.mp hb with hb | hb
      · subst hb; simp [List.length_take]
      · exact ih _ b hb

lemma chunksAux_dropLast_length (bs : Nat) (hbs : 1 ≤ bs) :
    ∀ (fuel : Nat) (l : List Nat), l.length ≤ fuel →
      ∀ b ∈ (chunksAux fuel bs l).dropLast, b.length = bs := by
  intro fuel
  induction fuel with
  | zero =>
    intro l hl b hb
    have hnil : l = [] := List.eq_nil_of_length_eq_zero (by omega)
    subst hnil
    simp [chunksAux_nil] at hb
  | succ f ih =>
    intro l hl b hb
    cases l with
    | nil => simp [chunksAux_nil] at hb
    | cons a l' =>
      rw [show chunksAux (f + 1) bs (a :: l') =
        (a :: l').take bs :: chunksAux f bs ((a :: l').drop bs) from rfl] at hb
      rcases hrest : chunksAux f bs ((a :: l').drop bs) with _ | ⟨r, rs⟩
      · rw [hrest] at hb; simp at hb
      · rw [hrest] at hb
        rw [show ((a :: l').take bs :: r :: rs).dropLast =
          (a :: l').take bs :: (r :: rs).dropLast from rfl] at hb
        rcases List.mem_cons.mp hb with hb | hb
        · have hne : (a :: l').drop bs ≠ [] := by
            intro h0
            rw [h0, chunksAux_nil] at hrest
            exact absurd hrest (by simp)
          have hlen : bs < (a :: l').length := by
            by_contra hcon
            exact hne (List.drop_eq_nil_iff.mpr (by omega))
          subst hb
          simp only [List.length_take, List.length_cons] at hlen ⊢
          omega
        · exact ih ((a :: l').drop bs) (by simp at hl ⊢; omega) b
            (by rw [hrest]; exact hb)

lemma chunksOf_mem_length_le (bs : Nat) (l b : List Nat)
    (hb : b ∈ chunksOf bs l) : b.length ≤ bs := by
  rw [chunksOf] at hb
  by_cases h0 : bs = 0
  · rw [if_pos h0] at hb; simp at hb
  · rw [if_neg h0] at hb; exact chunksAux_mem_length_le bs l.length l b hb

lemma chunksOf_dropLast_length (bs : Nat) (l : List Nat) (hbs : 1 ≤ bs)
    (b : List Nat) (hb : b ∈ (chunksOf bs l).dropLast) : b.length = bs := by
  rw [chunksOf, if_neg (by omega)] at hb
  exact chunksAux_dropLast_length bs hbs l.length l le_rfl b hb

/-! ### Claim C6: valid/test iteration is deterministic and sequential -/

/-- C6: for the valid and the test loaders built by get_data_loaders,
any two full passes produce identical batch sequences (the permutation
parameter fed to the shuffling sampler is ignored since shuffle=False),
and the samples visited, in order, are exactly the partition's dataset
indices in positional (manifest row) order, for every manifest and
every batch_size ≥ 1. -/
theorem C6_sequential_passes_identical (rows : List (String × String))
    (it mt : Option (Tensor → Tensor)) (bs nw : Int)
    (hbs : 1 ≤ bs) (hnw : 0 ≤ nw) (tl vl tst : DataLoader)
    (h : get_data_loaders rows it mt bs nw = .ok (tl, vl, tst)) :
    (∀ p q, vl.pass p = vl.pass q) ∧
    (∀ p, (vl.pass p).flatten = val_indices (read_csv rows).length) ∧
    (∀ p q, tst.pass p = tst.pass q) ∧
    (∀ p, (tst.pass p).flatten = test_indices (read_csv rows).length) := by
  obtain ⟨-, -, -, h1, h2, h3⟩ := get_data_loaders_ok_inv rows it mt bs nw tl vl tst h
  subst h1 h2 h3
  have hbn : 1 ≤ bs.toNat := by omega
  refine ⟨fun p q => rfl, fun p => ?_, fun p q => rfl, fun p => ?_⟩
  · exact chunksOf_flatten bs.toNat (val_indices (read_csv rows).length) hbn
  · exact chunksOf_flatten bs.toNat (test_indices (read_csv rows).length) hbn

/-- C6 witness: concrete 21-row manifest (N = 20, valid = [16,18),
test = [18,20)), batch_size 3: both passes of the valid loader with
different permutation inputs agree and flatten to [16, 17]. -/
theorem C6_sequential_passes_identical_witness :
    (DataLoader.mk (val_indices 20) 3 false 4).pass [1, 0] =
      (DataLoader.mk (val_indices 20) 3 false 4).pass [] ∧
    ((DataLoader.mk (val_indices 20) 3 false 4).pass [1, 0]).flatten =
      val_indices 20 := by
  have h := C6_sequential_passes_identical (List.replicate 21 ("img", "msk"))
    none none 3 4 (by norm_num) (by norm_num)
    (DataLoader.mk (train_indices 20) 3 true 4)
    (DataLoader.mk (val_indices 20) 3 false 4)
    (DataLoader.mk (test_indices 20) 3 false 4)
    (get_data_loaders_ok (List.replicate 21 ("img", "msk")) none none 3 4
      (by norm_num) (by norm_num) (by decide))
  have hn : (read_csv (List.replicate 21 ("img", "msk"))).length = 20 := by
    simp [read_csv]
  rw [hn] at h
  exact ⟨h.1 [1, 0] [], h.2.1 [1, 0]⟩

/-! ### Claim C7: batch sizes and stacked shapes -/

/-- C7: every batch of a loader pass has at most batch_size samples and
every batch except possibly the last has exactly batch_size; per-sample
tensors have shapes [3,H,W] (image) and [1,H,W] (mask), and the default
collate stacks b same-shape tensors into shape b :: s, so image batches
have shape [b,3,H,W] and mask batches [b,1,H,W]; concretely, for
batch_size 4 over the size-10 valid partition of a 100-row manifest,
iteration yields exactly 3 batches of sizes [4, 4, 2]. -/
theorem C7_batch_sizes_and_shapes :
    (∀ (dl : DataLoader) (perm b : List Nat), 1 ≤ dl.batch_size →
      (b ∈ dl.pass perm → b.length ≤ dl.batch_size) ∧
      (b ∈ (dl.pass perm).dropLast → b.length = dl.batch_size)) ∧
    (∀ d : ImageData, (imageTensor d).shape = [3, d.H, d.W]) ∧
    (∀ m : MaskData, (maskTensor m).shape = [1, m.H, m.W]) ∧
    (∀ (ts : List Tensor) (s : List Nat), (∀ t ∈ ts, t.shape = s) → ts ≠ [] →
      (collate ts).shape = ts.length :: s) ∧
    (∀ tl vl tst : DataLoader,
      get_data_loaders (List.replicate 101 ("a", "b")) none none 4 0 =
        .ok (tl, vl, tst) →
      (vl.pass []).map List.length = [4, 4, 2]) := by
  refine ⟨?_, fun d => rfl, fun m => rfl, ?_, ?_⟩
  · intro dl perm b hbs
    exact ⟨fun hb => chunksOf_mem_length_le dl.batch_size _ b hb,
      fun hb => chunksOf_dropLast_length dl.batch_size _ hbs b hb⟩
  · intro ts s hts hne
    cases ts with
    | nil => exact absurd rfl hne
    | cons t rest =>
      show (t :: rest).length :: t.shape = (t :: rest).length :: s
      rw [hts t (List.mem_cons_self t rest)]
  · intro tl vl tst h
    obtain ⟨-, -, -, h1, h2, h3⟩ :=
      get_data_loaders_ok_inv (List.replicate 101 ("a", "b")) none none 4 0 tl vl tst h
    subst h2
    decide

/-- C7 witness: the size-10 valid partition of a 100-row manifest with
batch_size 4 yields batches of sizes [4, 4, 2]; a concrete stacked
image batch of two 2x2 samples has shape [2, 3, 2, 2]; and a concrete
full batch respects the batch-size bound. -/
theorem C7_batch_sizes_and_shapes_witness :
    ((DataLoader.mk (val_indices 100) 4 false 0).pass []).map List.length =
      [4, 4, 2] ∧
    (collate [imageTensor (ImageData.mk 2 2 (fun _ _ _ => 0)),
      imageTensor (ImageData.mk 2 2 (fun _ _ _ => 0))]).shape = [2, 3, 2, 2] ∧
    ([0, 1] : List Nat).length ≤ 2 := by
  refine ⟨?_, ?_, ?_⟩
  · exact C7_batch_sizes_and_shapes.2.2.2.2
      (DataLoader.mk (train_indices 100) 4 true 0)
      (DataLoader.mk (val_indices 100) 4 false 0)
      (DataLoader.mk (test_indices 100) 4 false 0)
      (get_data_loaders_ok (List.replicate 101 ("a", "b")) none none 4 0
        (by norm_num) (by norm_num) (by decide))
  · exact C7_batch_sizes_and_shapes.2.2.2.1
      [imageTensor (ImageData.mk 2 2 (fun _ _ _ => 0)),
        imageTensor (ImageData.mk 2 2 (fun _ _ _ => 0))] [3, 2, 2]
      (by
        intro t ht
        simp only [List.mem_cons, List.not_mem_nil, or_false] at ht
        rcases ht with h | h <;> (subst h; rfl))
      (by simp)
  · exact (C7_batch_sizes_and_shapes.1 (DataLoader.mk [0, 1, 2] 2 false 0) [] [0, 1]
      (by norm_num)).1 (by decide)

/-! ### Claim C8: transforms act only on their own tensor -/

/-- C8: on a successful access, __getitem__ returns exactly the pair
(applyTf img_tf scaled_image, applyTf mask_tf scaled_mask): the image
transform is applied first and only to the image tensor, the mask
transform only to the mask tensor, each component depends only on its
own transform, and an unconfigured transform (none) leaves its tensor
unchanged from the scaling/reordering step. -/
theorem C8_transforms_frame (env : Env) (ds : PolypDataset) (i : Int)
    (img msk : String) (hrow : iloc ds.manifestRows i = some (img, msk))
    (himg : env.pathExists img = true) (hmsk : env.pathExists msk = true) :
    ds.getItem env i =
      .ok (applyTf ds.img_tf (imageTensor (env.decodeImg img)),
           applyTf ds.mask_tf (maskTensor (env.decodeMask msk))) ∧
    (∀ t, applyTf none t = t) := by
  refine ⟨?_, fun t => rfl⟩
  unfold PolypDataset.getItem PolypDataset.getItemFromCsv
  rw [hrow]
  simp [himg, hmsk]

/-- C8 witness: a dataset configured with a constant image transform
and no mask transform returns the transformed image and the untouched
scaled mask. -/
theorem C8_transforms_frame_witness :
    (PolypDataset.init [("hdr", "hdr"), ("imgC", "mskC")]
        (some (fun _ => Tensor.mk [] (fun _ => 7))) none).getItem
      (Env.mk (fun _ => true) (fun _ => ImageData.mk 1 1 (fun _ _ _ => 0))
        (fun _ => MaskData.mk 1 1 (fun _ _ => 0))) 0 =
      .ok (applyTf ((PolypDataset.init [("hdr", "hdr"), ("imgC", "mskC")]
              (some (fun _ => Tensor.mk [] (fun _ => 7))) none).img_tf)
             (imageTensor (ImageData.mk 1 1 (fun _ _ _ => 0))),
           applyTf ((PolypDataset.init [("hdr", "hdr"), ("imgC", "mskC")]
              (some (fun _ => Tensor.mk [] (fun _ => 7))) none).mask_tf)
             (maskTensor (MaskData.mk 1 1 (fun _ _ => 0)))) :=
  (C8_transforms_frame
    (Env.mk (fun _ => true) (fun _ => ImageData.mk 1 1 (fun _ _ _ => 0))
      (fun _ => MaskData.mk 1 1 (fun _ _ => 0)))
    (PolypDataset.init [("hdr", "hdr"), ("imgC", "mskC")]
      (some (fun _ => Tensor.mk [] (fun _ => 7))) none) 0
    "imgC" "mskC" rfl rfl rfl).1

/-! ### Claim C9: negative indices resolve from the end -/

/-- C9: __getitem__ accepts negative indices: for -N ≤ i < 0 the iloc
lookup does not fail on the index itself and resolves the same
manifest row — and hence the same result — as index N + i, so the
precondition 0 ≤ index < length is not enforced at the public
interface. -/
theorem C9_negative_indices (env : Env) (ds : PolypDataset) (i : Int)
    (hlo : -(ds.len : Int) ≤ i) (hhi : i < 0) :
    iloc ds.manifestRows i ≠ none ∧
    iloc ds.manifestRows i = iloc ds.manifestRows ((ds.len : Int) + i) ∧
    ds.getItem env i = ds.getItem env ((ds.len : Int) + i) := by
  have hlen : (ds.len : Int) = (ds.manifestRows.length : Int) := by
    rfl
  have hiloc : iloc ds.manifestRows i =
      ds.manifestRows.get? ((ds.manifestRows.length : Int) + i).toNat := by
    rw [iloc]
    simp only [if_neg (by omega : ¬(0 : Int) ≤ i)]
    rw [if_pos (by rw [← hlen]; omega)]
  have hiloc' : iloc ds.manifestRows ((ds.len : Int) + i) =
      ds.manifestRows.get? ((ds.manifestRows.length : Int) + i).toNat := by
    rw [iloc]
    rw [if_pos (by rw [← hlen] at *; omega : (0 : Int) ≤ (ds.len : Int) + i), ← hlen]
    rw [if_pos (by omega)]
  have heq : iloc ds.manifestRows i = iloc ds.manifestRows ((ds.len : Int) + i) :=
    hiloc.trans hiloc'.symm
  refine ⟨?_, heq, ?_⟩
  · rw [hiloc]
    intro hnone
    rw [List.get?_eq_none] at hnone
    have hl : ds.len = ds.manifestRows.length := rfl
    rw [hl] at hlo
    omega
  · unfold PolypDataset.getItem PolypDataset.getItemFromCsv
    rw [heq]

/-- C9 witness: on a two-row manifest, index -1 resolves the same row
and the same result as index 1. -/
theorem C9_negative_indices_witness :
    (PolypDataset.init [("hdr", "hdr"), ("i0", "m0"), ("i1", "m1")] none none).getItem
        (Env.mk (fun _ => true) (fun _ => ImageData.mk 1 1 (fun _ _ _ => 0))
          (fun _ => MaskData.mk 1 1 (fun _ _ => 0))) (-1) =
      (PolypDataset.init [("hdr", "hdr"), ("i0", "m0"), ("i1", "m1")] none none).getItem
        (Env.mk (fun _ => true) (fun _ => ImageData.mk 1 1 (fun _ _ _ => 0))
          (fun _ => MaskData.mk 1 1 (fun _ _ => 0)))
        (((PolypDataset.init [("hdr", "hdr"), ("i0", "m0"), ("i1", "m1")]
            none none).len : Int) + (-1)) :=
  (C9_negative_indices
    (Env.mk (fun _ => true) (fun _ => ImageData.mk 1 1 (fun _ _ _ => 0))
      (fun _ => MaskData.mk 1 1 (fun _ _ => 0)))
    (PolypDataset.init [("hdr", "hdr"), ("i0", "m0"), ("i1", "m1")] none none)
    (-1) (by decide) (by decide)).2.2

/-! ### Claim C10: the first manifest line is always the header -/

/-- C10: construction always treats the first line of the manifest file
as the header, never as a sample: for a nonempty file with L lines, the
dataset length is L - 1 and row 0 is the file's second line.  The
pandas.read_csv call on line 23 passes no header option, so no
configuration can include the first line as data (and pandas itself
raises on an empty file, hence L ≥ 1). -/
theorem C10_header_row (fileLines : List (String × String))
    (it mt : Option (Tensor → Tensor)) (h : fileLines ≠ []) :
    (PolypDataset.init fileLines it mt).len = fileLines.length - 1 ∧
    iloc (PolypDataset.init fileLines it mt).manifestRows 0 = fileLines.get? 1 := by
  cases fileLines with
  | nil => exact absurd rfl h
  | cons a rest =>
    refine ⟨?_, ?_⟩
    · show rest.length = (a :: rest).length - 1
      simp
    · show iloc rest 0 = (a :: rest).get? 1
      simp [iloc]

/-- C10 witness: a three-line file gives a dataset of length 2 whose
row 0 is the file's second line. -/
theorem C10_header_row_witness :
    (PolypDataset.init [("ha", "hb"), ("r0a", "r0b"), ("r1a", "r1b")]
        none none).len = 2 ∧
    iloc (PolypDataset.init [("ha", "hb"), ("r0a", "r0b"), ("r1a", "r1b")]
        none none).manifestRows 0 = some ("r0a", "r0b") :=
  C10_header_row [("ha", "hb"), ("r0a", "r0b"), ("r1a", "r1b")] none none
    (by simp)

end Dmss
